import Mathlib

/-! Transforms.cpp: staging of projection, transformation and camera parameters.

A shallow embedding of `src/code/Transforms.cpp`.  The three functions of the
file, `setProjection`, `setTransforms` and `setCamera`, resolve uniform
locations by name and write constant values to them.  Each is translated
statement by statement as a function on an explicit OpenGL context value.

The OpenGL entry points (`glGetUniformLocation`, `glUniform1i`, `glUniform1f`,
`glUniform3fv`) are not code of the repository; they are modelled after the
binding-layer interface of the specification (resolve a slot by name, write an
integer, a scalar or a vec3 to a slot, a write to the invalid slot being a
no-op).
-/

namespace Transforms

/-! ## Machine types -/

/-- Unsigned program handle (`GLuint`).  No arithmetic is done on it. -/
abbrev GLuint := Nat

/-- Signed integer (`GLint`): uniform locations and integer uniform values.  No
arithmetic is done on it. -/
abbrev GLint := Int

/-- Values of type `GLfloat`: IEEE binary32 numbers, each of which is a rational
number.  The code only copies its constants, it never computes with them.  A
constant table carries, for each literal of the source, the binary32 value the
literal denotes: the literal itself where it is exactly representable
(`0.0f`, `1.0f`, `-0.5f`, `4.5f`, `330.0f`, ...), and the nearest binary32 value
where it is not (`1.3f`, `-0.4f`, `-0.2f`, `0.2f`, `0.9f`). -/
abbrev GLfloat := ℚ

/-! ## The binding layer -/

/-- Value held by a uniform slot. -/
inductive Uniform where
  | int (v : GLint)
  | float (v : GLfloat)
  | vec3 (x y z : GLfloat)
  deriving DecidableEq

/-- One write call issued to the binding layer, with its arguments. -/
inductive GLCall where
  | uniform1i (location : GLint) (v0 : GLint)
  | uniform1f (location : GLint) (v0 : GLfloat)
  | uniform3fv (location : GLint) (count : Nat) (x y z : GLfloat)
  deriving DecidableEq

/-- The part of the OpenGL context that the code reads and writes.

* `location program name` is the answer of `glGetUniformLocation`: the location
  of the active uniform `name` of `program`, or `-1` when the program has no
  such uniform.
* `uniform` is the uniform storage addressed by the `glUniform*` calls, by
  location.  These calls take no program argument: they address the program in
  use, which is the program the driver passes to the three functions.
* `issued` records the `glUniform*` calls made so far, oldest first.
* `location_inj`: two different names of one program never share a location. -/
structure GLContext where
  location : GLuint → String → GLint
  uniform : GLint → Uniform
  issued : List GLCall
  location_inj : ∀ program a b, location program a ≠ -1 →
    location program a = location program b → a = b

/-- Modelled from the spec: `glGetUniformLocation` of the OpenGL binding layer
(`resolveSlot(programHandle, name) -> slotHandle`), which is not part of the
repository.  It returns the location of the named uniform, `-1` being the
invalid-slot sentinel, and changes nothing. -/
def glGetUniformLocation (gl : GLContext) (program : GLuint) (name : String) : GLint :=
  gl.location program name

/-- Storing a value at a location; the invalid location `-1` is ignored. -/
def store (u : GLint → Uniform) (location : GLint) (v : Uniform) : GLint → Uniform :=
  if location = -1 then u else Function.update u location v

/-- Modelled from the spec: `glUniform1i` of the OpenGL binding layer
(`writeInt(slotHandle, int)`), which is not part of the repository.  The call
is recorded; the value is stored unless the location is `-1`. -/
def glUniform1i (gl : GLContext) (location : GLint) (v0 : GLint) : GLContext :=
  { gl with
    uniform := store gl.uniform location (Uniform.int v0)
    issued := gl.issued ++ [GLCall.uniform1i location v0] }

/-- Modelled from the spec: `glUniform1f` of the OpenGL binding layer
(`writeScalar(slotHandle, float)`), which is not part of the repository.  The
call is recorded; the value is stored unless the location is `-1`. -/
def glUniform1f (gl : GLContext) (location : GLint) (v0 : GLfloat) : GLContext :=
  { gl with
    uniform := store gl.uniform location (Uniform.float v0)
    issued := gl.issued ++ [GLCall.uniform1f location v0] }

/-- Modelled from the spec: `glUniform3fv` of the OpenGL binding layer
(`writeVec3(slotHandle, vec3)`), which is not part of the repository.  `value`
is the three-element array passed by pointer.  The call is recorded; with
`count = 1` the vector `(value[0], value[1], value[2])` is stored unless the
location is `-1`.  Other counts address array uniforms, which the code never
uses, and store nothing here. -/
def glUniform3fv (gl : GLContext) (location : GLint) (count : Nat)
    (value : Fin 3 → GLfloat) : GLContext :=
  { gl with
    uniform :=
      if count = 1 then
        store gl.uniform location (Uniform.vec3 (value 0) (value 1) (value 2))
      else gl.uniform
    issued := gl.issued ++ [GLCall.uniform3fv location count (value 0) (value 1) (value 2)] }

/-- Reading back the slot `name` of `program`: `none` when the program does not
expose the name, otherwise the value stored at its location. -/
def slot (gl : GLContext) (program : GLuint) (name : String) : Option Uniform :=
  if gl.location program name = -1 then none
  else some (gl.uniform (gl.location program name))

/-! ## Mode selectors -/

/-- Modelled from the spec: the enumeration `ViewMode` of `Transforms.h`, which
is not under `src/`: the projection mode, Frustum or Orthographic. -/
inductive ViewMode where
  | Frustum
  | Ortho
  deriving DecidableEq, Repr

/-- Modelled from the spec: the enumeration `XformMode` of `Transforms.h`, which
is not under `src/`: transformations off or on. -/
inductive XformMode where
  | Off
  | On
  deriving DecidableEq, Repr

/-- Modelled from the spec: the enumeration `CamMode` of `Transforms.h`, which
is not under `src/`: the two camera positions. -/
inductive CamMode where
  | Camera1
  | Camera2
  deriving DecidableEq, Repr

/-! ## Constant tables (lines 29-50) -/

/-- Camera position 1. -/
def cam1_eye : Fin 3 → GLfloat := ![0.0, 0.0, 0.0]
def cam1_lookat : Fin 3 → GLfloat := ![0.0, 0.0, -1.0]
def cam1_up : Fin 3 → GLfloat := ![0.0, 1.0, 0.0]

/-- Camera position 2: `0.0f, 1.3f, -0.5f`, where `1.3f` is the binary32
value 0x3FA66666 = 5452595/4194304. -/
def cam2_eye : Fin 3 → GLfloat := ![0.0, 5452595 / 4194304, -0.5]

/-- Camera position 2: `0.0f, -0.4f, -1.0f`, where `-0.4f` is the binary32
value 0xBECCCCCD = -13421773/33554432. -/
def cam2_lookat : Fin 3 → GLfloat := ![0.0, -13421773 / 33554432, -1.0]

/-- Camera position 2: `0.0f, 1.0f, 0.0f`. -/
def cam2_up : Fin 3 → GLfloat := ![0.0, 1.0, 0.0]

/-- Default transformations. -/
def std_scale : Fin 3 → GLfloat := ![1.0, 1.0, 1.0]
def std_rotate : Fin 3 → GLfloat := ![0.0, 0.0, 0.0]
def std_xlate : Fin 3 → GLfloat := ![0.0, 0.0, 0.0]

/-- Alternate transformation values. -/
def alt_scale : Fin 3 → GLfloat := ![1.0, 2.0, 1.0]
def alt_rotate : Fin 3 → GLfloat := ![0.0, 330.0, 305.0]

/-- Alternate translation `-0.2f, 0.2f, 0.0f`, where `0.2f` is the binary32
value 0x3E4CCCCD = 13421773/67108864 and `-0.2f` its negation. -/
def alt_xlate : Fin 3 → GLfloat := ![-13421773 / 67108864, 13421773 / 67108864, 0.0]

/-- Clipping boundaries: left, right, top, bottom, near, far:
`-1.0f, 1.0f, 1.0f, -1.0f, 0.9f, 4.5f`, where `0.9f` is the binary32 value
0x3F666666 = 7549747/8388608. -/
def bounds : Fin 6 → GLfloat := ![-1.0, 1.0, 1.0, -1.0, 7549747 / 8388608, 4.5]

/-! ## The three operations -/

/-- The function `setProjection` (lines 63-82). -/
def setProjection (program : GLuint) (mode : ViewMode) (gl : GLContext) : GLContext :=
  let lo := glGetUniformLocation gl program "type"
  let gl := if mode = ViewMode.Frustum then glUniform1i gl lo 0 else glUniform1i gl lo 1
  let gl := glUniform1f gl (glGetUniformLocation gl program "left") (bounds 0)
  let gl := glUniform1f gl (glGetUniformLocation gl program "right") (bounds 1)
  let gl := glUniform1f gl (glGetUniformLocation gl program "top") (bounds 2)
  let gl := glUniform1f gl (glGetUniformLocation gl program "bottom") (bounds 3)
  let gl := glUniform1f gl (glGetUniformLocation gl program "near") (bounds 4)
  glUniform1f gl (glGetUniformLocation gl program "far") (bounds 5)

/-- The function `setTransforms` (lines 96-113). -/
def setTransforms (program : GLuint) (mode : XformMode) (gl : GLContext) : GLContext :=
  let ls := glGetUniformLocation gl program "scale"
  let lr := glGetUniformLocation gl program "rotate"
  let lx := glGetUniformLocation gl program "translate"
  if mode = XformMode.Off then
    let gl := glUniform3fv gl ls 1 std_scale
    let gl := glUniform3fv gl lr 1 std_rotate
    glUniform3fv gl lx 1 std_xlate
  else
    let gl := glUniform3fv gl ls 1 alt_scale
    let gl := glUniform3fv gl lr 1 alt_rotate
    glUniform3fv gl lx 1 alt_xlate

/-- The function `setCamera` (lines 126-143). -/
def setCamera (program : GLuint) (mode : CamMode) (gl : GLContext) : GLContext :=
  let le := glGetUniformLocation gl program "eye"
  let ll := glGetUniformLocation gl program "lookat"
  let lu := glGetUniformLocation gl program "up"
  if mode = CamMode.Camera1 then
    let gl := glUniform3fv gl le 1 cam1_eye
    let gl := glUniform3fv gl ll 1 cam1_lookat
    glUniform3fv gl lu 1 cam1_up
  else
    let gl := glUniform3fv gl le 1 cam2_eye
    let gl := glUniform3fv gl ll 1 cam2_lookat
    glUniform3fv gl lu 1 cam2_up

/-! ## A concrete program for evaluation -/

/-- Location table of a program whose active uniforms are `names`, numbered in
order; `-1` for any other name. -/
def locate (names : List String) (name : String) : GLint :=
  if name ∈ names then (names.indexOf name : Int) else -1

/-- The context in which every program has the active uniforms `names`, every
location holds integer zero and no call has been issued. -/
def GLContext.ofNames (names : List String) : GLContext where
  location := fun _ name => locate names name
  uniform := fun _ => Uniform.int 0
  issued := []
  location_inj := by
    intro _ a b ha h
    change locate names a ≠ -1 at ha
    change locate names a = locate names b at h
    unfold locate at ha h
    by_cases hm : a ∈ names
    · by_cases hb : b ∈ names
      · rw [if_pos hm, if_pos hb] at h
        exact (List.indexOf_inj hm hb).mp (by exact_mod_cast h)
      · rw [if_pos hm, if_neg hb] at h
        have h0 : (0 : Int) ≤ (names.indexOf a : Int) := Int.ofNat_nonneg _
        rw [h] at h0
        exact absurd h0 (by decide)
    · exact absurd (if_neg hm) ha

/-- The uniforms of the vertex shader that the three functions address. -/
def shaderUniforms : List String :=
  ["type", "left", "right", "top", "bottom", "near", "far",
   "scale", "rotate", "translate", "eye", "lookat", "up"]

/-- A program exposing all thirteen uniforms. -/
def teapot : GLContext := GLContext.ofNames shaderUniforms

/-- A program exposing no uniform at all. -/
def bare : GLContext := GLContext.ofNames []

/-- A program exposing only `eye`, `scale` and `near`. -/
def partly : GLContext := GLContext.ofNames ["eye", "scale", "near"]

/-- The program exposes the slot `name`: resolving it does not give the
invalid-slot sentinel. -/
def exposes (gl : GLContext) (program : GLuint) (name : String) : Prop :=
  glGetUniformLocation gl program name ≠ -1

instance (gl : GLContext) (program : GLuint) (name : String) :
    Decidable (exposes gl program name) := by
  unfold exposes; infer_instance

/-! ## Basic facts about the binding layer -/

theorem store_apply (u : GLint → Uniform) (l : GLint) (v : Uniform) (x : GLint) :
    store u l v x = if l ≠ -1 ∧ x = l then v else u x := by
  unfold store
  by_cases hl : l = -1
  · simp [hl]
  · by_cases hx : x = l
    · subst hx; simp [hl]
    · simp [hl, hx, Function.update_noteq hx]

@[simp] theorem glUniform1i_location (gl : GLContext) (l : GLint) (v : GLint) :
    (glUniform1i gl l v).location = gl.location := rfl

@[simp] theorem glUniform1f_location (gl : GLContext) (l : GLint) (v : GLfloat) :
    (glUniform1f gl l v).location = gl.location := rfl

@[simp] theorem glUniform3fv_location (gl : GLContext) (l : GLint) (n : Nat)
    (a : Fin 3 → GLfloat) : (glUniform3fv gl l n a).location = gl.location := rfl

@[simp] theorem glUniform1i_uniform (gl : GLContext) (l : GLint) (v : GLint) :
    (glUniform1i gl l v).uniform = store gl.uniform l (Uniform.int v) := rfl

@[simp] theorem glUniform1f_uniform (gl : GLContext) (l : GLint) (v : GLfloat) :
    (glUniform1f gl l v).uniform = store gl.uniform l (Uniform.float v) := rfl

@[simp] theorem glUniform3fv_uniform (gl : GLContext) (l : GLint) (a : Fin 3 → GLfloat) :
    (glUniform3fv gl l 1 a).uniform = store gl.uniform l (Uniform.vec3 (a 0) (a 1) (a 2)) :=
  rfl

@[simp] theorem glUniform1i_issued (gl : GLContext) (l : GLint) (v : GLint) :
    (glUniform1i gl l v).issued = gl.issued ++ [GLCall.uniform1i l v] := rfl

@[simp] theorem glUniform1f_issued (gl : GLContext) (l : GLint) (v : GLfloat) :
    (glUniform1f gl l v).issued = gl.issued ++ [GLCall.uniform1f l v] := rfl

@[simp] theorem glUniform3fv_issued (gl : GLContext) (l : GLint) (n : Nat)
    (a : Fin 3 → GLfloat) :
    (glUniform3fv gl l n a).issued
      = gl.issued ++ [GLCall.uniform3fv l n (a 0) (a 1) (a 2)] := rfl

/-- Two different names, one of them exposed, resolve to different locations. -/
theorem location_ne (gl : GLContext) (program : GLuint) {a b : String} (hab : a ≠ b)
    (ha : gl.location program a ≠ -1) :
    gl.location program a ≠ gl.location program b :=
  fun h => hab (gl.location_inj program a b ha h)

/-- An exposed name shares its location with no other name. -/
theorem location_eq_iff (gl : GLContext) (program : GLuint) {a : String}
    (ha : gl.location program a ≠ -1) (b : String) :
    gl.location program a = gl.location program b ↔ a = b :=
  ⟨gl.location_inj program a b ha, fun h => by rw [h]⟩

/-! ## Values of the constant tables -/

theorem cam1_eye_val : cam1_eye 0 = 0 ∧ cam1_eye 1 = 0 ∧ cam1_eye 2 = 0 := by
  refine ⟨?_, ?_, ?_⟩ <;> norm_num [cam1_eye]

theorem cam1_lookat_val : cam1_lookat 0 = 0 ∧ cam1_lookat 1 = 0 ∧ cam1_lookat 2 = -1 := by
  refine ⟨?_, ?_, ?_⟩ <;> norm_num [cam1_lookat]

theorem cam1_up_val : cam1_up 0 = 0 ∧ cam1_up 1 = 1 ∧ cam1_up 2 = 0 := by
  refine ⟨?_, ?_, ?_⟩ <;> norm_num [cam1_up]

theorem cam2_eye_val : cam2_eye 0 = 0 ∧ cam2_eye 1 = 5452595 / 4194304 ∧ cam2_eye 2 = -0.5 := by
  refine ⟨?_, ?_, ?_⟩ <;> norm_num [cam2_eye]

theorem cam2_lookat_val : cam2_lookat 0 = 0 ∧ cam2_lookat 1 = -13421773 / 33554432
    ∧ cam2_lookat 2 = -1 := by
  refine ⟨?_, ?_, ?_⟩ <;> norm_num [cam2_lookat]

theorem cam2_up_val : cam2_up 0 = 0 ∧ cam2_up 1 = 1 ∧ cam2_up 2 = 0 := by
  refine ⟨?_, ?_, ?_⟩ <;> norm_num [cam2_up]

theorem std_scale_val : std_scale 0 = 1 ∧ std_scale 1 = 1 ∧ std_scale 2 = 1 := by
  refine ⟨?_, ?_, ?_⟩ <;> norm_num [std_scale]

theorem std_rotate_val : std_rotate 0 = 0 ∧ std_rotate 1 = 0 ∧ std_rotate 2 = 0 := by
  refine ⟨?_, ?_, ?_⟩ <;> norm_num [std_rotate]

theorem std_xlate_val : std_xlate 0 = 0 ∧ std_xlate 1 = 0 ∧ std_xlate 2 = 0 := by
  refine ⟨?_, ?_, ?_⟩ <;> norm_num [std_xlate]

theorem alt_scale_val : alt_scale 0 = 1 ∧ alt_scale 1 = 2 ∧ alt_scale 2 = 1 := by
  refine ⟨?_, ?_, ?_⟩ <;> norm_num [alt_scale]

theorem alt_rotate_val : alt_rotate 0 = 0 ∧ alt_rotate 1 = 330 ∧ alt_rotate 2 = 305 := by
  refine ⟨?_, ?_, ?_⟩ <;> norm_num [alt_rotate]

theorem alt_xlate_val : alt_xlate 0 = -13421773 / 67108864
    ∧ alt_xlate 1 = 13421773 / 67108864 ∧ alt_xlate 2 = 0 := by
  refine ⟨?_, ?_, ?_⟩ <;> norm_num [alt_xlate]

theorem bounds_val : bounds 0 = -1 ∧ bounds 1 = 1 ∧ bounds 2 = 1 ∧ bounds 3 = -1
    ∧ bounds 4 = 7549747 / 8388608 ∧ bounds 5 = 4.5 := by
  refine ⟨?_, ?_, ?_, ?_, ?_, rfl⟩ <;> norm_num [bounds]

/-- The five table entries whose source literal has no exact binary32 value
are the binary32 numbers nearest to the literal: each is a 24-bit significand
(between 2^23 and 2^24) over a power of two, and lies within half a unit in the
last place of the decimal the source writes. -/
theorem inexact_literals_nearest :
    (cam2_eye 1 = 10905190 / 2 ^ 23 ∧ |cam2_eye 1 - 1.3| < 1 / 2 ^ 24)
    ∧ (cam2_lookat 1 = -(13421773 / 2 ^ 25) ∧ |cam2_lookat 1 - (-0.4)| < 1 / 2 ^ 26)
    ∧ (alt_xlate 0 = -(13421773 / 2 ^ 26) ∧ |alt_xlate 0 - (-0.2)| < 1 / 2 ^ 27)
    ∧ (alt_xlate 1 = 13421773 / 2 ^ 26 ∧ |alt_xlate 1 - 0.2| < 1 / 2 ^ 27)
    ∧ (bounds 4 = 15099494 / 2 ^ 24 ∧ |bounds 4 - 0.9| < 1 / 2 ^ 25) := by
  refine ⟨⟨?_, ?_⟩, ⟨?_, ?_⟩, ⟨?_, ?_⟩, ⟨?_, ?_⟩, ⟨?_, ?_⟩⟩ <;>
    norm_num [cam2_eye, cam2_lookat, alt_xlate, bounds, abs_lt]

/-! ## What each operation does to the context -/

theorem setProjection_location (program : GLuint) (mode : ViewMode) (gl : GLContext) :
    (setProjection program mode gl).location = gl.location := by
  cases mode <;> rfl

theorem setTransforms_location (program : GLuint) (mode : XformMode) (gl : GLContext) :
    (setTransforms program mode gl).location = gl.location := by
  cases mode <;> rfl

theorem setCamera_location (program : GLuint) (mode : CamMode) (gl : GLContext) :
    (setCamera program mode gl).location = gl.location := by
  cases mode <;> rfl

/-- The uniform storage after `setProjection`: the seven stores in call order. -/
theorem setProjection_uniform (program : GLuint) (mode : ViewMode) (gl : GLContext) :
    (setProjection program mode gl).uniform =
      store (store (store (store (store (store (store gl.uniform
        (gl.location program "type")
          (Uniform.int (if mode = ViewMode.Frustum then 0 else 1)))
        (gl.location program "left") (Uniform.float (bounds 0)))
        (gl.location program "right") (Uniform.float (bounds 1)))
        (gl.location program "top") (Uniform.float (bounds 2)))
        (gl.location program "bottom") (Uniform.float (bounds 3)))
        (gl.location program "near") (Uniform.float (bounds 4)))
        (gl.location program "far") (Uniform.float (bounds 5)) := by
  cases mode <;> rfl

/-- The uniform storage after `setTransforms`: the three stores in call order. -/
theorem setTransforms_uniform (program : GLuint) (mode : XformMode) (gl : GLContext) :
    (setTransforms program mode gl).uniform =
      store (store (store gl.uniform
        (gl.location program "scale")
          (if mode = XformMode.Off
            then Uniform.vec3 (std_scale 0) (std_scale 1) (std_scale 2)
            else Uniform.vec3 (alt_scale 0) (alt_scale 1) (alt_scale 2)))
        (gl.location program "rotate")
          (if mode = XformMode.Off
            then Uniform.vec3 (std_rotate 0) (std_rotate 1) (std_rotate 2)
            else Uniform.vec3 (alt_rotate 0) (alt_rotate 1) (alt_rotate 2)))
        (gl.location program "translate")
          (if mode = XformMode.Off
            then Uniform.vec3 (std_xlate 0) (std_xlate 1) (std_xlate 2)
            else Uniform.vec3 (alt_xlate 0) (alt_xlate 1) (alt_xlate 2)) := by
  cases mode <;> rfl

/-- The uniform storage after `setCamera`: the three stores in call order. -/
theorem setCamera_uniform (program : GLuint) (mode : CamMode) (gl : GLContext) :
    (setCamera program mode gl).uniform =
      store (store (store gl.uniform
        (gl.location program "eye")
          (if mode = CamMode.Camera1
            then Uniform.vec3 (cam1_eye 0) (cam1_eye 1) (cam1_eye 2)
            else Uniform.vec3 (cam2_eye 0) (cam2_eye 1) (cam2_eye 2)))
        (gl.location program "lookat")
          (if mode = CamMode.Camera1
            then Uniform.vec3 (cam1_lookat 0) (cam1_lookat 1) (cam1_lookat 2)
            else Uniform.vec3 (cam2_lookat 0) (cam2_lookat 1) (cam2_lookat 2)))
        (gl.location program "up")
          (if mode = CamMode.Camera1
            then Uniform.vec3 (cam1_up 0) (cam1_up 1) (cam1_up 2)
            else Uniform.vec3 (cam2_up 0) (cam2_up 1) (cam2_up 2)) := by
  cases mode <;> rfl

/-- Reading a slot after a sequence of stores: a slot that is exposed and whose
location was stored to last with `v` holds `v`. -/
theorem slot_eq_some (gl : GLContext) (program : GLuint) (name : String) (v : Uniform)
    (h : gl.location program name ≠ -1)
    (hv : gl.uniform (gl.location program name) = v) :
    slot gl program name = some v := by
  unfold slot
  rw [if_neg h, hv]

/-! ## C1: camera presets -/

/-- C1: on a program exposing `eye`, `lookat` and `up`, whatever the slots held
before, `setCamera` with `Camera1` leaves eye = (0,0,0), lookat = (0,0,-1),
up = (0,1,0) and with `Camera2` leaves eye = (0,1.3f,-0.5), lookat = (0,-0.4f,-1),
up = (0,1,0), the float literals `1.3f` and `-0.4f` being the binary32 values
5452595/4194304 and -13421773/33554432 that the program stores. -/
theorem setCamera_writes_preset (gl : GLContext) (program : GLuint)
    (he : exposes gl program "eye") (hl : exposes gl program "lookat")
    (hu : exposes gl program "up") :
    (slot (setCamera program CamMode.Camera1 gl) program "eye" = some (Uniform.vec3 0 0 0)
      ∧ slot (setCamera program CamMode.Camera1 gl) program "lookat"
          = some (Uniform.vec3 0 0 (-1))
      ∧ slot (setCamera program CamMode.Camera1 gl) program "up" = some (Uniform.vec3 0 1 0))
    ∧ (slot (setCamera program CamMode.Camera2 gl) program "eye"
          = some (Uniform.vec3 0 (5452595 / 4194304) (-0.5))
      ∧ slot (setCamera program CamMode.Camera2 gl) program "lookat"
          = some (Uniform.vec3 0 (-13421773 / 33554432) (-1))
      ∧ slot (setCamera program CamMode.Camera2 gl) program "up"
          = some (Uniform.vec3 0 1 0)) := by
  unfold exposes glGetUniformLocation at he hl hu
  have h1 := location_ne gl program (show "eye" ≠ "lookat" by decide) he
  have h2 := location_ne gl program (show "eye" ≠ "up" by decide) he
  have h3 := location_ne gl program (show "lookat" ≠ "up" by decide) hl
  refine ⟨⟨?_, ?_, ?_⟩, ?_, ?_, ?_⟩ <;>
    apply slot_eq_some <;>
    simp [setCamera_location, setCamera_uniform, store_apply, he, hl, hu, h1, h2, h3,
      cam1_eye_val, cam1_lookat_val, cam1_up_val, cam2_eye_val, cam2_lookat_val, cam2_up_val]

/-- Instance of C1 on the program `teapot`, starting from all slots zero. -/
theorem setCamera_writes_preset_witness :
    exposes teapot 1 "eye" ∧ exposes teapot 1 "lookat" ∧ exposes teapot 1 "up"
    ∧ slot (setCamera 1 CamMode.Camera1 teapot) 1 "lookat" = some (Uniform.vec3 0 0 (-1))
    ∧ slot (setCamera 1 CamMode.Camera2 teapot) 1 "eye"
        = some (Uniform.vec3 0 (5452595 / 4194304) (-0.5)) :=
  ⟨by decide, by decide, by decide,
    (setCamera_writes_preset teapot 1 (by decide) (by decide) (by decide)).1.2.1,
    (setCamera_writes_preset teapot 1 (by decide) (by decide) (by decide)).2.1⟩

/-! ## C2: transform presets -/

/-- C2: on a program exposing `scale`, `rotate` and `translate`, whatever the
slots held before, `setTransforms` with `Off` leaves scale = (1,1,1),
rotate = (0,0,0), translate = (0,0,0) and with `On` leaves scale = (1,2,1),
rotate = (0,330,305), translate = (-0.2f,0.2f,0), the float literals `-0.2f` and
`0.2f` being the binary32 values -13421773/67108864 and 13421773/67108864 that
the program stores. -/
theorem setTransforms_writes_preset (gl : GLContext) (program : GLuint)
    (hs : exposes gl program "scale") (hr : exposes gl program "rotate")
    (hx : exposes gl program "translate") :
    (slot (setTransforms program XformMode.Off gl) program "scale"
          = some (Uniform.vec3 1 1 1)
      ∧ slot (setTransforms program XformMode.Off gl) program "rotate"
          = some (Uniform.vec3 0 0 0)
      ∧ slot (setTransforms program XformMode.Off gl) program "translate"
          = some (Uniform.vec3 0 0 0))
    ∧ (slot (setTransforms program XformMode.On gl) program "scale"
          = some (Uniform.vec3 1 2 1)
      ∧ slot (setTransforms program XformMode.On gl) program "rotate"
          = some (Uniform.vec3 0 330 305)
      ∧ slot (setTransforms program XformMode.On gl) program "translate"
          = some (Uniform.vec3 (-13421773 / 67108864) (13421773 / 67108864) 0)) := by
  unfold exposes glGetUniformLocation at hs hr hx
  have h1 := location_ne gl program (show "scale" ≠ "rotate" by decide) hs
  have h2 := location_ne gl program (show "scale" ≠ "translate" by decide) hs
  have h3 := location_ne gl program (show "rotate" ≠ "translate" by decide) hr
  refine ⟨⟨?_, ?_, ?_⟩, ?_, ?_, ?_⟩ <;>
    apply slot_eq_some <;>
    simp [setTransforms_location, setTransforms_uniform, store_apply, hs, hr, hx, h1, h2, h3,
      std_scale_val, std_rotate_val, std_xlate_val, alt_scale_val, alt_rotate_val,
      alt_xlate_val]

/-- Instance of C2 on the program `teapot`, starting from all slots zero. -/
theorem setTransforms_writes_preset_witness :
    exposes teapot 1 "scale" ∧ exposes teapot 1 "rotate" ∧ exposes teapot 1 "translate"
    ∧ slot (setTransforms 1 XformMode.Off teapot) 1 "scale" = some (Uniform.vec3 1 1 1)
    ∧ slot (setTransforms 1 XformMode.On teapot) 1 "translate"
        = some (Uniform.vec3 (-13421773 / 67108864) (13421773 / 67108864) 0) :=
  ⟨by decide, by decide, by decide,
    (setTransforms_writes_preset teapot 1 (by decide) (by decide) (by decide)).1.1,
    (setTransforms_writes_preset teapot 1 (by decide) (by decide) (by decide)).2.2.2⟩

/-! ## C3: projection flag and bounds -/

/-- C3: on a program exposing `type`, `left`, `right`, `top`, `bottom`, `near`
and `far`, whatever the slots held before, `setProjection` leaves type = 0 for
`Frustum` and type = 1 for `Ortho`, and in both modes left = -1, right = 1,
top = 1, bottom = -1, near = 0.9f, far = 4.5, the float literal `0.9f` being the
binary32 value 7549747/8388608 that the program stores. -/
theorem setProjection_writes_flag_and_bounds (gl : GLContext) (program : GLuint)
    (ht : exposes gl program "type") (hl : exposes gl program "left")
    (hr : exposes gl program "right") (hp : exposes gl program "top")
    (hb : exposes gl program "bottom") (hn : exposes gl program "near")
    (hf : exposes gl program "far") :
    slot (setProjection program ViewMode.Frustum gl) program "type" = some (Uniform.int 0)
    ∧ slot (setProjection program ViewMode.Ortho gl) program "type" = some (Uniform.int 1)
    ∧ ∀ mode : ViewMode,
        slot (setProjection program mode gl) program "left" = some (Uniform.float (-1))
      ∧ slot (setProjection program mode gl) program "right" = some (Uniform.float 1)
      ∧ slot (setProjection program mode gl) program "top" = some (Uniform.float 1)
      ∧ slot (setProjection program mode gl) program "bottom" = some (Uniform.float (-1))
      ∧ slot (setProjection program mode gl) program "near"
          = some (Uniform.float (7549747 / 8388608))
      ∧ slot (setProjection program mode gl) program "far" = some (Uniform.float 4.5) := by
  unfold exposes glGetUniformLocation at ht hl hr hp hb hn hf
  have t1 := location_ne gl program (show "type" ≠ "left" by decide) ht
  have t2 := location_ne gl program (show "type" ≠ "right" by decide) ht
  have t3 := location_ne gl program (show "type" ≠ "top" by decide) ht
  have t4 := location_ne gl program (show "type" ≠ "bottom" by decide) ht
  have t5 := location_ne gl program (show "type" ≠ "near" by decide) ht
  have t6 := location_ne gl program (show "type" ≠ "far" by decide) ht
  have l2 := location_ne gl program (show "left" ≠ "right" by decide) hl
  have l3 := location_ne gl program (show "left" ≠ "top" by decide) hl
  have l4 := location_ne gl program (show "left" ≠ "bottom" by decide) hl
  have l5 := location_ne gl program (show "left" ≠ "near" by decide) hl
  have l6 := location_ne gl program (show "left" ≠ "far" by decide) hl
  have r3 := location_ne gl program (show "right" ≠ "top" by decide) hr
  have r4 := location_ne gl program (show "right" ≠ "bottom" by decide) hr
  have r5 := location_ne gl program (show "right" ≠ "near" by decide) hr
  have r6 := location_ne gl program (show "right" ≠ "far" by decide) hr
  have p4 := location_ne gl program (show "top" ≠ "bottom" by decide) hp
  have p5 := location_ne gl program (show "top" ≠ "near" by decide) hp
  have p6 := location_ne gl program (show "top" ≠ "far" by decide) hp
  have b5 := location_ne gl program (show "bottom" ≠ "near" by decide) hb
  have b6 := location_ne gl program (show "bottom" ≠ "far" by decide) hb
  have n6 := location_ne gl program (show "near" ≠ "far" by decide) hn
  refine ⟨?_, ?_, fun mode => ⟨?_, ?_, ?_, ?_, ?_, ?_⟩⟩ <;>
    apply slot_eq_some <;>
    simp [setProjection_location, setProjection_uniform, store_apply, ht, hl, hr, hp, hb,
      hn, hf, t1, t2, t3, t4, t5, t6, l2, l3, l4, l5, l6, r3, r4, r5, r6, p4, p5, p6, b5,
      b6, n6, bounds_val]

/-- Instance of C3 on the program `teapot`, starting from all slots zero. -/
theorem setProjection_writes_flag_and_bounds_witness :
    exposes teapot 1 "type" ∧ exposes teapot 1 "near"
    ∧ slot (setProjection 1 ViewMode.Ortho teapot) 1 "type" = some (Uniform.int 1)
    ∧ slot (setProjection 1 ViewMode.Ortho teapot) 1 "near"
        = some (Uniform.float (7549747 / 8388608)) :=
  ⟨by decide, by decide,
    (setProjection_writes_flag_and_bounds teapot 1 (by decide) (by decide) (by decide)
      (by decide) (by decide) (by decide) (by decide)).2.1,
    ((setProjection_writes_flag_and_bounds teapot 1 (by decide) (by decide) (by decide)
      (by decide) (by decide) (by decide) (by decide)).2.2 ViewMode.Ortho).2.2.2.2.1⟩

/-! ## Values stored at the named locations -/

/-- A store to an unexposed slot, or to another location, is not seen at `x`. -/
theorem store_of_ne (u : GLint → Uniform) (l : GLint) (v : Uniform) (x : GLint)
    (h : l ≠ -1 → x ≠ l) : store u l v x = u x := by
  rw [store_apply, if_neg (fun c => h c.1 c.2)]

/-- After `setProjection`, each of the seven projection slots that the program
exposes holds its value, whether or not the other six are exposed. -/
theorem setProjection_at (gl : GLContext) (program : GLuint) (mode : ViewMode) :
    (gl.location program "type" ≠ -1 →
      (setProjection program mode gl).uniform (gl.location program "type")
        = Uniform.int (if mode = ViewMode.Frustum then 0 else 1))
    ∧ (gl.location program "left" ≠ -1 →
      (setProjection program mode gl).uniform (gl.location program "left")
        = Uniform.float (-1))
    ∧ (gl.location program "right" ≠ -1 →
      (setProjection program mode gl).uniform (gl.location program "right")
        = Uniform.float 1)
    ∧ (gl.location program "top" ≠ -1 →
      (setProjection program mode gl).uniform (gl.location program "top")
        = Uniform.float 1)
    ∧ (gl.location program "bottom" ≠ -1 →
      (setProjection program mode gl).uniform (gl.location program "bottom")
        = Uniform.float (-1))
    ∧ (gl.location program "near" ≠ -1 →
      (setProjection program mode gl).uniform (gl.location program "near")
        = Uniform.float (7549747 / 8388608))
    ∧ (gl.location program "far" ≠ -1 →
      (setProjection program mode gl).uniform (gl.location program "far")
        = Uniform.float 4.5) := by
  refine ⟨?_, ?_, ?_, ?_, ?_, ?_, ?_⟩ <;> intro h <;>
    simp [setProjection_uniform, store_apply, location_eq_iff gl program h, h, bounds_val]

/-- After `setTransforms`, each of the three transformation slots that the
program exposes holds the value of the selected preset, whether or not the
other two are exposed. -/
theorem setTransforms_at (gl : GLContext) (program : GLuint) (mode : XformMode) :
    (gl.location program "scale" ≠ -1 →
      (setTransforms program mode gl).uniform (gl.location program "scale")
        = if mode = XformMode.Off then Uniform.vec3 1 1 1 else Uniform.vec3 1 2 1)
    ∧ (gl.location program "rotate" ≠ -1 →
      (setTransforms program mode gl).uniform (gl.location program "rotate")
        = if mode = XformMode.Off then Uniform.vec3 0 0 0 else Uniform.vec3 0 330 305)
    ∧ (gl.location program "translate" ≠ -1 →
      (setTransforms program mode gl).uniform (gl.location program "translate")
        = if mode = XformMode.Off then Uniform.vec3 0 0 0
          else Uniform.vec3 (-13421773 / 67108864) (13421773 / 67108864) 0) := by
  refine ⟨?_, ?_, ?_⟩ <;> intro h <;> cases mode <;>
    simp [setTransforms_uniform, store_apply, location_eq_iff gl program h, h,
      std_scale_val, std_rotate_val, std_xlate_val, alt_scale_val, alt_rotate_val,
      alt_xlate_val]

/-- After `setCamera`, each of the three camera slots that the program exposes
holds the value of the selected preset, whether or not the other two are
exposed. -/
theorem setCamera_at (gl : GLContext) (program : GLuint) (mode : CamMode) :
    (gl.location program "eye" ≠ -1 →
      (setCamera program mode gl).uniform (gl.location program "eye")
        = if mode = CamMode.Camera1 then Uniform.vec3 0 0 0
          else Uniform.vec3 0 (5452595 / 4194304) (-0.5))
    ∧ (gl.location program "lookat" ≠ -1 →
      (setCamera program mode gl).uniform (gl.location program "lookat")
        = if mode = CamMode.Camera1 then Uniform.vec3 0 0 (-1)
          else Uniform.vec3 0 (-13421773 / 33554432) (-1))
    ∧ (gl.location program "up" ≠ -1 →
      (setCamera program mode gl).uniform (gl.location program "up")
        = Uniform.vec3 0 1 0) := by
  refine ⟨?_, ?_, ?_⟩ <;> intro h <;> cases mode <;>
    simp [setCamera_uniform, store_apply, location_eq_iff gl program h, h,
      cam1_eye_val, cam1_lookat_val, cam1_up_val, cam2_eye_val, cam2_lookat_val, cam2_up_val]

/-- Storage at every location that is not the location of an exposed projection
slot is untouched by `setProjection`; this includes the sentinel `-1`. -/
theorem setProjection_frame_exposed (gl : GLContext) (program : GLuint) (mode : ViewMode)
    (l : GLint)
    (h : ∀ name ∈ ["type", "left", "right", "top", "bottom", "near", "far"],
      gl.location program name ≠ -1 → l ≠ gl.location program name) :
    (setProjection program mode gl).uniform l = gl.uniform l := by
  rw [setProjection_uniform,
    store_of_ne _ _ _ _ (h "far" (by simp)), store_of_ne _ _ _ _ (h "near" (by simp)),
    store_of_ne _ _ _ _ (h "bottom" (by simp)), store_of_ne _ _ _ _ (h "top" (by simp)),
    store_of_ne _ _ _ _ (h "right" (by simp)), store_of_ne _ _ _ _ (h "left" (by simp)),
    store_of_ne _ _ _ _ (h "type" (by simp))]

/-- Storage at every location that is not the location of an exposed
transformation slot is untouched by `setTransforms`. -/
theorem setTransforms_frame_exposed (gl : GLContext) (program : GLuint) (mode : XformMode)
    (l : GLint)
    (h : ∀ name ∈ ["scale", "rotate", "translate"],
      gl.location program name ≠ -1 → l ≠ gl.location program name) :
    (setTransforms program mode gl).uniform l = gl.uniform l := by
  rw [setTransforms_uniform,
    store_of_ne _ _ _ _ (h "translate" (by simp)), store_of_ne _ _ _ _ (h "rotate" (by simp)),
    store_of_ne _ _ _ _ (h "scale" (by simp))]

/-- Storage at every location that is not the location of an exposed camera
slot is untouched by `setCamera`. -/
theorem setCamera_frame_exposed (gl : GLContext) (program : GLuint) (mode : CamMode)
    (l : GLint)
    (h : ∀ name ∈ ["eye", "lookat", "up"],
      gl.location program name ≠ -1 → l ≠ gl.location program name) :
    (setCamera program mode gl).uniform l = gl.uniform l := by
  rw [setCamera_uniform,
    store_of_ne _ _ _ _ (h "up" (by simp)), store_of_ne _ _ _ _ (h "lookat" (by simp)),
    store_of_ne _ _ _ _ (h "eye" (by simp))]

/-- Reading a slot goes through name resolution, which `setProjection` keeps. -/
theorem slot_setProjection (gl : GLContext) (program : GLuint) (mode : ViewMode)
    (name : String) :
    slot (setProjection program mode gl) program name
      = if gl.location program name = -1 then none
        else some ((setProjection program mode gl).uniform (gl.location program name)) := by
  unfold slot; rw [setProjection_location]

theorem slot_setTransforms (gl : GLContext) (program : GLuint) (mode : XformMode)
    (name : String) :
    slot (setTransforms program mode gl) program name
      = if gl.location program name = -1 then none
        else some ((setTransforms program mode gl).uniform (gl.location program name)) := by
  unfold slot; rw [setTransforms_location]

theorem slot_setCamera (gl : GLContext) (program : GLuint) (mode : CamMode)
    (name : String) :
    slot (setCamera program mode gl) program name
      = if gl.location program name = -1 then none
        else some ((setCamera program mode gl).uniform (gl.location program name)) := by
  unfold slot; rw [setCamera_location]

/-! ## C4: independence of the three operations -/

/-- Storage outside the three camera locations is untouched by `setCamera`. -/
theorem setCamera_frame (gl : GLContext) (program : GLuint) (mode : CamMode) (l : GLint)
    (he : l ≠ gl.location program "eye") (hl : l ≠ gl.location program "lookat")
    (hu : l ≠ gl.location program "up") :
    (setCamera program mode gl).uniform l = gl.uniform l := by
  simp [setCamera_uniform, store_apply, he, hl, hu]

/-- Storage outside the three transformation locations is untouched by
`setTransforms`. -/
theorem setTransforms_frame (gl : GLContext) (program : GLuint) (mode : XformMode)
    (l : GLint) (hs : l ≠ gl.location program "scale")
    (hr : l ≠ gl.location program "rotate") (hx : l ≠ gl.location program "translate") :
    (setTransforms program mode gl).uniform l = gl.uniform l := by
  simp [setTransforms_uniform, store_apply, hs, hr, hx]

/-- Storage outside the seven projection locations is untouched by
`setProjection`. -/
theorem setProjection_frame (gl : GLContext) (program : GLuint) (mode : ViewMode)
    (l : GLint) (ht : l ≠ gl.location program "type") (hl : l ≠ gl.location program "left")
    (hr : l ≠ gl.location program "right") (hp : l ≠ gl.location program "top")
    (hb : l ≠ gl.location program "bottom") (hn : l ≠ gl.location program "near")
    (hf : l ≠ gl.location program "far") :
    (setProjection program mode gl).uniform l = gl.uniform l := by
  simp [setProjection_uniform, store_apply, ht, hl, hr, hp, hb, hn, hf]

/-- C4: each operation leaves every slot it does not name as it was.
`setCamera` changes no slot other than `eye`, `lookat`, `up`; `setTransforms`
none other than `scale`, `rotate`, `translate`; `setProjection` none other than
`type`, `left`, `right`, `top`, `bottom`, `near`, `far`. -/
theorem operations_independent (gl : GLContext) (program : GLuint) :
    (∀ (mode : CamMode) (name : String),
        name ≠ "eye" → name ≠ "lookat" → name ≠ "up" →
        slot (setCamera program mode gl) program name = slot gl program name)
    ∧ (∀ (mode : XformMode) (name : String),
        name ≠ "scale" → name ≠ "rotate" → name ≠ "translate" →
        slot (setTransforms program mode gl) program name = slot gl program name)
    ∧ (∀ (mode : ViewMode) (name : String),
        name ≠ "type" → name ≠ "left" → name ≠ "right" → name ≠ "top" →
        name ≠ "bottom" → name ≠ "near" → name ≠ "far" →
        slot (setProjection program mode gl) program name = slot gl program name) := by
  refine ⟨?_, ?_, ?_⟩
  · intro mode name h1 h2 h3
    unfold slot
    rw [setCamera_location]
    by_cases h : gl.location program name = -1
    · rw [if_pos h, if_pos h]
    · rw [if_neg h, if_neg h, setCamera_frame gl program mode _
        (location_ne gl program h1 h) (location_ne gl program h2 h)
        (location_ne gl program h3 h)]
  · intro mode name h1 h2 h3
    unfold slot
    rw [setTransforms_location]
    by_cases h : gl.location program name = -1
    · rw [if_pos h, if_pos h]
    · rw [if_neg h, if_neg h, setTransforms_frame gl program mode _
        (location_ne gl program h1 h) (location_ne gl program h2 h)
        (location_ne gl program h3 h)]
  · intro mode name h1 h2 h3 h4 h5 h6 h7
    unfold slot
    rw [setProjection_location]
    by_cases h : gl.location program name = -1
    · rw [if_pos h, if_pos h]
    · rw [if_neg h, if_neg h, setProjection_frame gl program mode _
        (location_ne gl program h1 h) (location_ne gl program h2 h)
        (location_ne gl program h3 h) (location_ne gl program h4 h)
        (location_ne gl program h5 h) (location_ne gl program h6 h)
        (location_ne gl program h7 h)]

/-- Instance of C4 on the program `teapot` after a first camera call: the next
operation of each kind leaves the slots of the other two kinds as they were. -/
theorem operations_independent_witness :
    slot (setCamera 1 CamMode.Camera1 (setCamera 1 CamMode.Camera2 teapot)) 1 "scale"
      = slot (setCamera 1 CamMode.Camera2 teapot) 1 "scale"
    ∧ slot (setTransforms 1 XformMode.On (setCamera 1 CamMode.Camera2 teapot)) 1 "eye"
      = slot (setCamera 1 CamMode.Camera2 teapot) 1 "eye"
    ∧ slot (setProjection 1 ViewMode.Ortho (setCamera 1 CamMode.Camera2 teapot)) 1 "eye"
      = slot (setCamera 1 CamMode.Camera2 teapot) 1 "eye" :=
  ⟨(operations_independent (setCamera 1 CamMode.Camera2 teapot) 1).1 CamMode.Camera1 "scale"
      (by decide) (by decide) (by decide),
    (operations_independent (setCamera 1 CamMode.Camera2 teapot) 1).2.1 XformMode.On "eye"
      (by decide) (by decide) (by decide),
    (operations_independent (setCamera 1 CamMode.Camera2 teapot) 1).2.2 ViewMode.Ortho "eye"
      (by decide) (by decide) (by decide) (by decide) (by decide) (by decide) (by decide)⟩

/-! ## Repeating an operation -/

/-- A later `setCamera` overwrites all that an earlier one stored. -/
theorem setCamera_absorb (gl : GLContext) (program : GLuint) (m1 m2 : CamMode) :
    (setCamera program m2 (setCamera program m1 gl)).uniform
      = (setCamera program m2 gl).uniform := by
  funext x
  simp only [setCamera_uniform, setCamera_location, store_apply]
  split_ifs <;> rfl

/-- A later `setTransforms` overwrites all that an earlier one stored. -/
theorem setTransforms_absorb (gl : GLContext) (program : GLuint) (m1 m2 : XformMode) :
    (setTransforms program m2 (setTransforms program m1 gl)).uniform
      = (setTransforms program m2 gl).uniform := by
  funext x
  simp only [setTransforms_uniform, setTransforms_location, store_apply]
  split_ifs <;> rfl

/-- A later `setProjection` overwrites all that an earlier one stored. -/
theorem setProjection_absorb (gl : GLContext) (program : GLuint) (m1 m2 : ViewMode) :
    (setProjection program m2 (setProjection program m1 gl)).uniform
      = (setProjection program m2 gl).uniform := by
  funext x
  simp only [setProjection_uniform, setProjection_location, store_apply]
  split_ifs <;> rfl

/-! ## C5: idempotence -/

/-- C5: applying `setProjection`, `setTransforms` or `setCamera` twice in
succession with the same mode leaves the same slot state (name resolution and
uniform storage) as applying it once. -/
theorem operations_idempotent (gl : GLContext) (program : GLuint) :
    (∀ mode : ViewMode,
        (setProjection program mode (setProjection program mode gl)).uniform
          = (setProjection program mode gl).uniform
        ∧ (setProjection program mode (setProjection program mode gl)).location
          = (setProjection program mode gl).location)
    ∧ (∀ mode : XformMode,
        (setTransforms program mode (setTransforms program mode gl)).uniform
          = (setTransforms program mode gl).uniform
        ∧ (setTransforms program mode (setTransforms program mode gl)).location
          = (setTransforms program mode gl).location)
    ∧ (∀ mode : CamMode,
        (setCamera program mode (setCamera program mode gl)).uniform
          = (setCamera program mode gl).uniform
        ∧ (setCamera program mode (setCamera program mode gl)).location
          = (setCamera program mode gl).location) :=
  ⟨fun mode => ⟨setProjection_absorb gl program mode mode, setProjection_location _ _ _⟩,
    fun mode => ⟨setTransforms_absorb gl program mode mode, setTransforms_location _ _ _⟩,
    fun mode => ⟨setCamera_absorb gl program mode mode, setCamera_location _ _ _⟩⟩

/-! ## C6: the projection mode influences the `type` slot only -/

/-- C6: from one initial state, `setProjection` with `Frustum` and with `Ortho`
give states that agree on every slot other than `type` (so on `left`, `right`,
`top`, `bottom`, `near`, `far` and on all the rest), on every storage location
other than that of `type` and on name resolution; on a program exposing `type`
that slot holds 0 in the one and 1 in the other. -/
theorem projection_mode_affects_type_only (gl : GLContext) (program : GLuint) :
    (∀ name : String, name ≠ "type" →
        slot (setProjection program ViewMode.Frustum gl) program name
          = slot (setProjection program ViewMode.Ortho gl) program name)
    ∧ (∀ l : GLint, l ≠ gl.location program "type" →
        (setProjection program ViewMode.Frustum gl).uniform l
          = (setProjection program ViewMode.Ortho gl).uniform l)
    ∧ (setProjection program ViewMode.Frustum gl).location
        = (setProjection program ViewMode.Ortho gl).location
    ∧ (exposes gl program "type" →
        slot (setProjection program ViewMode.Frustum gl) program "type"
          = some (Uniform.int 0)
        ∧ slot (setProjection program ViewMode.Ortho gl) program "type"
          = some (Uniform.int 1)
        ∧ slot (setProjection program ViewMode.Frustum gl) program "type"
          ≠ slot (setProjection program ViewMode.Ortho gl) program "type") := by
  have key : ∀ l : GLint, l ≠ gl.location program "type" →
      (setProjection program ViewMode.Frustum gl).uniform l
        = (setProjection program ViewMode.Ortho gl).uniform l := by
    intro l hl
    simp only [setProjection_uniform, store_apply]
    split_ifs <;> first | rfl | exact absurd ‹_ ∧ _›.2 hl
  refine ⟨?_, key, ?_, ?_⟩
  · intro name hne
    unfold slot
    simp only [setProjection_location]
    by_cases h : gl.location program name = -1
    · rw [if_pos h, if_pos h]
    · rw [if_neg h, if_neg h, key _ (location_ne gl program hne h)]
  · rw [setProjection_location, setProjection_location]
  · intro ht
    unfold exposes glGetUniformLocation at ht
    have hF : slot (setProjection program ViewMode.Frustum gl) program "type"
        = some (Uniform.int 0) := by
      apply slot_eq_some
      · rwa [setProjection_location]
      · simp [setProjection_location, setProjection_uniform, store_apply,
          location_eq_iff gl program ht, ht]
    have hO : slot (setProjection program ViewMode.Ortho gl) program "type"
        = some (Uniform.int 1) := by
      apply slot_eq_some
      · rwa [setProjection_location]
      · simp [setProjection_location, setProjection_uniform, store_apply,
          location_eq_iff gl program ht, ht]
    refine ⟨hF, hO, ?_⟩
    rw [hF, hO]
    decide

/-- Instance of C6 on the program `teapot`. -/
theorem projection_mode_affects_type_only_witness :
    slot (setProjection 1 ViewMode.Frustum teapot) 1 "near"
      = slot (setProjection 1 ViewMode.Ortho teapot) 1 "near"
    ∧ slot (setProjection 1 ViewMode.Frustum teapot) 1 "type"
      ≠ slot (setProjection 1 ViewMode.Ortho teapot) 1 "type" :=
  ⟨(projection_mode_affects_type_only teapot 1).1 "near" (by decide),
    ((projection_mode_affects_type_only teapot 1).2.2.2 (by decide)).2.2⟩

/-! ## C7: slots that the program does not expose -/

/-- C7: the three operations are total functions on contexts, with no error
result.  For each of them, on any program and in any mode: a named slot that the
program does not expose still reads as absent afterwards, and the storage at the
sentinel location `-1` is as before; storage at every location that is not the
location of an exposed named slot is as before; every named slot that the
program does expose holds its preset value, whether or not the other named
slots exist; and when the program exposes none of the named slots the whole
uniform storage and the name resolution are unchanged.  The preset values are
those the program stores: the float literals `0.9f`, `-0.2f`, `0.2f`, `1.3f` and
`-0.4f` are the binary32 values 7549747/8388608, -13421773/67108864,
13421773/67108864, 5452595/4194304 and -13421773/33554432. -/
theorem missing_slot_write_is_noop (gl : GLContext) (program : GLuint) :
    (∀ mode : ViewMode,
      (∀ name : String, ¬ exposes gl program name →
          slot (setProjection program mode gl) program name = none)
      ∧ (setProjection program mode gl).uniform (-1) = gl.uniform (-1)
      ∧ (∀ l : GLint,
          (∀ name ∈ ["type", "left", "right", "top", "bottom", "near", "far"],
            exposes gl program name → l ≠ glGetUniformLocation gl program name) →
          (setProjection program mode gl).uniform l = gl.uniform l)
      ∧ (exposes gl program "type" → slot (setProjection program mode gl) program "type"
          = some (Uniform.int (if mode = ViewMode.Frustum then 0 else 1)))
      ∧ (exposes gl program "left" → slot (setProjection program mode gl) program "left"
          = some (Uniform.float (-1)))
      ∧ (exposes gl program "right" → slot (setProjection program mode gl) program "right"
          = some (Uniform.float 1))
      ∧ (exposes gl program "top" → slot (setProjection program mode gl) program "top"
          = some (Uniform.float 1))
      ∧ (exposes gl program "bottom" → slot (setProjection program mode gl) program "bottom"
          = some (Uniform.float (-1)))
      ∧ (exposes gl program "near" → slot (setProjection program mode gl) program "near"
          = some (Uniform.float (7549747 / 8388608)))
      ∧ (exposes gl program "far" → slot (setProjection program mode gl) program "far"
          = some (Uniform.float 4.5))
      ∧ ((∀ name ∈ ["type", "left", "right", "top", "bottom", "near", "far"],
            ¬ exposes gl program name) →
          (setProjection program mode gl).uniform = gl.uniform
          ∧ (setProjection program mode gl).location = gl.location))
    ∧ (∀ mode : XformMode,
      (∀ name : String, ¬ exposes gl program name →
          slot (setTransforms program mode gl) program name = none)
      ∧ (setTransforms program mode gl).uniform (-1) = gl.uniform (-1)
      ∧ (∀ l : GLint,
          (∀ name ∈ ["scale", "rotate", "translate"],
            exposes gl program name → l ≠ glGetUniformLocation gl program name) →
          (setTransforms program mode gl).uniform l = gl.uniform l)
      ∧ (exposes gl program "scale" → slot (setTransforms program mode gl) program "scale"
          = some (if mode = XformMode.Off then Uniform.vec3 1 1 1 else Uniform.vec3 1 2 1))
      ∧ (exposes gl program "rotate" → slot (setTransforms program mode gl) program "rotate"
          = some (if mode = XformMode.Off then Uniform.vec3 0 0 0
                  else Uniform.vec3 0 330 305))
      ∧ (exposes gl program "translate" →
          slot (setTransforms program mode gl) program "translate"
          = some (if mode = XformMode.Off then Uniform.vec3 0 0 0
                  else Uniform.vec3 (-13421773 / 67108864) (13421773 / 67108864) 0))
      ∧ ((∀ name ∈ ["scale", "rotate", "translate"], ¬ exposes gl program name) →
          (setTransforms program mode gl).uniform = gl.uniform
          ∧ (setTransforms program mode gl).location = gl.location))
    ∧ (∀ mode : CamMode,
      (∀ name : String, ¬ exposes gl program name →
          slot (setCamera program mode gl) program name = none)
      ∧ (setCamera program mode gl).uniform (-1) = gl.uniform (-1)
      ∧ (∀ l : GLint,
          (∀ name ∈ ["eye", "lookat", "up"],
            exposes gl program name → l ≠ glGetUniformLocation gl program name) →
          (setCamera program mode gl).uniform l = gl.uniform l)
      ∧ (exposes gl program "eye" → slot (setCamera program mode gl) program "eye"
          = some (if mode = CamMode.Camera1 then Uniform.vec3 0 0 0
                  else Uniform.vec3 0 (5452595 / 4194304) (-0.5)))
      ∧ (exposes gl program "lookat" → slot (setCamera program mode gl) program "lookat"
          = some (if mode = CamMode.Camera1 then Uniform.vec3 0 0 (-1)
                  else Uniform.vec3 0 (-13421773 / 33554432) (-1)))
      ∧ (exposes gl program "up" → slot (setCamera program mode gl) program "up"
          = some (Uniform.vec3 0 1 0))
      ∧ ((∀ name ∈ ["eye", "lookat", "up"], ¬ exposes gl program name) →
          (setCamera program mode gl).uniform = gl.uniform
          ∧ (setCamera program mode gl).location = gl.location)) := by
  unfold exposes glGetUniformLocation
  refine ⟨fun mode => ?_, fun mode => ?_, fun mode => ?_⟩
  · have at_ := setProjection_at gl program mode
    refine ⟨?_, ?_, ?_, ?_, ?_, ?_, ?_, ?_, ?_, ?_, ?_⟩
    · intro name h
      rw [slot_setProjection, if_pos (not_not.mp h)]
    · exact setProjection_frame_exposed gl program mode _ (fun _ _ h => h.symm)
    · exact fun l h => setProjection_frame_exposed gl program mode l h
    · exact fun h => by rw [slot_setProjection, if_neg h, at_.1 h]
    · exact fun h => by rw [slot_setProjection, if_neg h, at_.2.1 h]
    · exact fun h => by rw [slot_setProjection, if_neg h, at_.2.2.1 h]
    · exact fun h => by rw [slot_setProjection, if_neg h, at_.2.2.2.1 h]
    · exact fun h => by rw [slot_setProjection, if_neg h, at_.2.2.2.2.1 h]
    · exact fun h => by rw [slot_setProjection, if_neg h, at_.2.2.2.2.2.1 h]
    · exact fun h => by rw [slot_setProjection, if_neg h, at_.2.2.2.2.2.2 h]
    · intro h
      refine ⟨?_, setProjection_location _ _ _⟩
      funext l
      exact setProjection_frame_exposed gl program mode l
        (fun name hn hx => absurd hx (h name hn))
  · have at_ := setTransforms_at gl program mode
    refine ⟨?_, ?_, ?_, ?_, ?_, ?_, ?_⟩
    · intro name h
      rw [slot_setTransforms, if_pos (not_not.mp h)]
    · exact setTransforms_frame_exposed gl program mode _ (fun _ _ h => h.symm)
    · exact fun l h => setTransforms_frame_exposed gl program mode l h
    · exact fun h => by rw [slot_setTransforms, if_neg h, at_.1 h]
    · exact fun h => by rw [slot_setTransforms, if_neg h, at_.2.1 h]
    · exact fun h => by rw [slot_setTransforms, if_neg h, at_.2.2 h]
    · intro h
      refine ⟨?_, setTransforms_location _ _ _⟩
      funext l
      exact setTransforms_frame_exposed gl program mode l
        (fun name hn hx => absurd hx (h name hn))
  · have at_ := setCamera_at gl program mode
    refine ⟨?_, ?_, ?_, ?_, ?_, ?_, ?_⟩
    · intro name h
      rw [slot_setCamera, if_pos (not_not.mp h)]
    · exact setCamera_frame_exposed gl program mode _ (fun _ _ h => h.symm)
    · exact fun l h => setCamera_frame_exposed gl program mode l h
    · exact fun h => by rw [slot_setCamera, if_neg h, at_.1 h]
    · exact fun h => by rw [slot_setCamera, if_neg h, at_.2.1 h]
    · exact fun h => by rw [slot_setCamera, if_neg h, at_.2.2 h]
    · intro h
      refine ⟨?_, setCamera_location _ _ _⟩
      funext l
      exact setCamera_frame_exposed gl program mode l
        (fun name hn hx => absurd hx (h name hn))

/-- Instance of C7: on `partly`, which exposes `eye` but neither `lookat` nor
`up`, `setCamera` still stores the eye vector and `lookat` stays absent; on
`bare`, which exposes nothing, `setProjection` leaves the storage as it was. -/
theorem missing_slot_write_is_noop_witness :
    exposes partly 1 "eye" ∧ ¬ exposes partly 1 "lookat" ∧ ¬ exposes partly 1 "up"
    ∧ slot (setCamera 1 CamMode.Camera2 partly) 1 "eye"
        = some (Uniform.vec3 0 (5452595 / 4194304) (-0.5))
    ∧ slot (setCamera 1 CamMode.Camera2 partly) 1 "lookat" = none
    ∧ (setProjection 1 ViewMode.Ortho bare).uniform = bare.uniform :=
  ⟨by decide, by decide, by decide,
    ((missing_slot_write_is_noop partly 1).2.2 CamMode.Camera2).2.2.2.1 (by decide),
    ((missing_slot_write_is_noop partly 1).2.2 CamMode.Camera2).1 "lookat" (by decide),
    (((missing_slot_write_is_noop bare 1).1 ViewMode.Ortho).2.2.2.2.2.2.2.2.2.2
      (by decide)).1⟩

/-! ## C8: one full preset per call -/

/-- C8: on every context, program handle and mode, a call of `setTransforms`
issues exactly three `glUniform3fv` writes, to the locations resolved from
`scale`, `rotate` and `translate` in this order, carrying (1,1,1), (0,0,0),
(0,0,0) for `Off` and (1,2,1), (0,330,305), (-0.2f,0.2f,0) for `On`; a call of
`setCamera` issues exactly three, to the locations resolved from `eye`,
`lookat` and `up`, carrying (0,0,0), (0,0,-1), (0,1,0) for `Camera1` and
(0,1.3f,-0.5), (0,-0.4f,-1), (0,1,0) for `Camera2`.  And no call ends with only
some of its three slots updated: on a program exposing the three slots, after
the call all three hold the values of the one preset the mode selects,
whatever they held before.  The float literals are the binary32 values the
program passes: `-0.2f` and `0.2f` are -13421773/67108864 and 13421773/67108864,
`1.3f` is 5452595/4194304 and `-0.4f` is -13421773/33554432. -/
theorem one_full_preset_per_call (gl : GLContext) (program : GLuint) :
    (setTransforms program XformMode.Off gl).issued = gl.issued ++
      [GLCall.uniform3fv (glGetUniformLocation gl program "scale") 1 1 1 1,
       GLCall.uniform3fv (glGetUniformLocation gl program "rotate") 1 0 0 0,
       GLCall.uniform3fv (glGetUniformLocation gl program "translate") 1 0 0 0]
    ∧ (setTransforms program XformMode.On gl).issued = gl.issued ++
      [GLCall.uniform3fv (glGetUniformLocation gl program "scale") 1 1 2 1,
       GLCall.uniform3fv (glGetUniformLocation gl program "rotate") 1 0 330 305,
       GLCall.uniform3fv (glGetUniformLocation gl program "translate") 1
         (-13421773 / 67108864) (13421773 / 67108864) 0]
    ∧ (setCamera program CamMode.Camera1 gl).issued = gl.issued ++
      [GLCall.uniform3fv (glGetUniformLocation gl program "eye") 1 0 0 0,
       GLCall.uniform3fv (glGetUniformLocation gl program "lookat") 1 0 0 (-1),
       GLCall.uniform3fv (glGetUniformLocation gl program "up") 1 0 1 0]
    ∧ (setCamera program CamMode.Camera2 gl).issued = gl.issued ++
      [GLCall.uniform3fv (glGetUniformLocation gl program "eye") 1 0 (5452595 / 4194304) (-0.5),
       GLCall.uniform3fv (glGetUniformLocation gl program "lookat") 1 0
         (-13421773 / 33554432) (-1),
       GLCall.uniform3fv (glGetUniformLocation gl program "up") 1 0 1 0]
    ∧ (exposes gl program "scale" → exposes gl program "rotate" →
        exposes gl program "translate" →
        (slot (setTransforms program XformMode.Off gl) program "scale"
            = some (Uniform.vec3 1 1 1)
          ∧ slot (setTransforms program XformMode.Off gl) program "rotate"
            = some (Uniform.vec3 0 0 0)
          ∧ slot (setTransforms program XformMode.Off gl) program "translate"
            = some (Uniform.vec3 0 0 0))
        ∧ (slot (setTransforms program XformMode.On gl) program "scale"
            = some (Uniform.vec3 1 2 1)
          ∧ slot (setTransforms program XformMode.On gl) program "rotate"
            = some (Uniform.vec3 0 330 305)
          ∧ slot (setTransforms program XformMode.On gl) program "translate"
            = some (Uniform.vec3 (-13421773 / 67108864) (13421773 / 67108864) 0)))
    ∧ (exposes gl program "eye" → exposes gl program "lookat" →
        exposes gl program "up" →
        (slot (setCamera program CamMode.Camera1 gl) program "eye"
            = some (Uniform.vec3 0 0 0)
          ∧ slot (setCamera program CamMode.Camera1 gl) program "lookat"
            = some (Uniform.vec3 0 0 (-1))
          ∧ slot (setCamera program CamMode.Camera1 gl) program "up"
            = some (Uniform.vec3 0 1 0))
        ∧ (slot (setCamera program CamMode.Camera2 gl) program "eye"
            = some (Uniform.vec3 0 (5452595 / 4194304) (-0.5))
          ∧ slot (setCamera program CamMode.Camera2 gl) program "lookat"
            = some (Uniform.vec3 0 (-13421773 / 33554432) (-1))
          ∧ slot (setCamera program CamMode.Camera2 gl) program "up"
            = some (Uniform.vec3 0 1 0))) := by
  unfold exposes glGetUniformLocation
  refine ⟨?_, ?_, ?_, ?_, fun hs hr hx => ?_, fun he hl hu => ?_⟩
  · simp [setTransforms, glGetUniformLocation, std_scale_val, std_rotate_val, std_xlate_val]
  · simp [setTransforms, glGetUniformLocation, alt_scale_val, alt_rotate_val, alt_xlate_val]
  · simp [setCamera, glGetUniformLocation, cam1_eye_val, cam1_lookat_val, cam1_up_val]
  · simp [setCamera, glGetUniformLocation, cam2_eye_val, cam2_lookat_val, cam2_up_val]
  · have hOff := setTransforms_at gl program XformMode.Off
    have hOn := setTransforms_at gl program XformMode.On
    refine ⟨⟨?_, ?_, ?_⟩, ?_, ?_, ?_⟩ <;> rw [slot_setTransforms]
    · rw [if_neg hs]; exact congrArg some (hOff.1 hs)
    · rw [if_neg hr]; exact congrArg some (hOff.2.1 hr)
    · rw [if_neg hx]; exact congrArg some (hOff.2.2 hx)
    · rw [if_neg hs]; exact congrArg some (hOn.1 hs)
    · rw [if_neg hr]; exact congrArg some (hOn.2.1 hr)
    · rw [if_neg hx]; exact congrArg some (hOn.2.2 hx)
  · have c1 := setCamera_at gl program CamMode.Camera1
    have c2 := setCamera_at gl program CamMode.Camera2
    refine ⟨⟨?_, ?_, ?_⟩, ?_, ?_, ?_⟩ <;> rw [slot_setCamera]
    · rw [if_neg he]; exact congrArg some (c1.1 he)
    · rw [if_neg hl]; exact congrArg some (c1.2.1 hl)
    · rw [if_neg hu]; exact congrArg some (c1.2.2 hu)
    · rw [if_neg he]; exact congrArg some (c2.1 he)
    · rw [if_neg hl]; exact congrArg some (c2.2.1 hl)
    · rw [if_neg hu]; exact congrArg some (c2.2.2 hu)

/-- Instance of C8 on the program `teapot`: the three calls of
`setTransforms On` and the three slots they leave. -/
theorem one_full_preset_per_call_witness :
    exposes teapot 1 "scale" ∧ exposes teapot 1 "rotate" ∧ exposes teapot 1 "translate"
    ∧ (setTransforms 1 XformMode.On teapot).issued =
      [GLCall.uniform3fv 7 1 1 2 1, GLCall.uniform3fv 8 1 0 330 305,
       GLCall.uniform3fv 9 1 (-13421773 / 67108864) (13421773 / 67108864) 0]
    ∧ slot (setTransforms 1 XformMode.On teapot) 1 "scale" = some (Uniform.vec3 1 2 1)
    ∧ slot (setTransforms 1 XformMode.On teapot) 1 "rotate" = some (Uniform.vec3 0 330 305)
    ∧ slot (setTransforms 1 XformMode.On teapot) 1 "translate"
      = some (Uniform.vec3 (-13421773 / 67108864) (13421773 / 67108864) 0) :=
  ⟨by decide, by decide, by decide, (one_full_preset_per_call teapot 1).2.1,
    ((one_full_preset_per_call teapot 1).2.2.2.2.1 (by decide) (by decide) (by decide)).2⟩

/-! ## C9: the three operations in sequence -/

/-- C9: on a program exposing all thirteen named slots, whatever they held
before, `setProjection p`, then `setTransforms t`, then `setCamera c` leaves
every slot holding the value selected by its own mode: type = 0 or 1, the six
bounds (-1, 1, 1, -1, 0.9f, 4.5), the transform preset of `t` and the camera
preset of `c`.  For (Frustum, Off, Camera1) this is type = 0, left = -1,
right = 1, top = 1, bottom = -1, near = 0.9f, far = 4.5, scale = (1,1,1),
rotate = (0,0,0), translate = (0,0,0), eye = (0,0,0), lookat = (0,0,-1),
up = (0,1,0).  The float literals are the binary32 values the program stores:
`0.9f` is 7549747/8388608, `-0.2f` and `0.2f` are -13421773/67108864 and
13421773/67108864, `1.3f` is 5452595/4194304, `-0.4f` is -13421773/33554432. -/
theorem end_to_end (gl : GLContext) (program : GLuint)
    (h : ∀ name ∈ shaderUniforms, exposes gl program name) :
    (∀ (p : ViewMode) (t : XformMode) (c : CamMode),
      slot (setCamera program c (setTransforms program t (setProjection program p gl)))
          program "type" = some (Uniform.int (if p = ViewMode.Frustum then 0 else 1))
      ∧ slot (setCamera program c (setTransforms program t (setProjection program p gl)))
          program "left" = some (Uniform.float (-1))
      ∧ slot (setCamera program c (setTransforms program t (setProjection program p gl)))
          program "right" = some (Uniform.float 1)
      ∧ slot (setCamera program c (setTransforms program t (setProjection program p gl)))
          program "top" = some (Uniform.float 1)
      ∧ slot (setCamera program c (setTransforms program t (setProjection program p gl)))
          program "bottom" = some (Uniform.float (-1))
      ∧ slot (setCamera program c (setTransforms program t (setProjection program p gl)))
          program "near" = some (Uniform.float (7549747 / 8388608))
      ∧ slot (setCamera program c (setTransforms program t (setProjection program p gl)))
          program "far" = some (Uniform.float 4.5)
      ∧ slot (setCamera program c (setTransforms program t (setProjection program p gl)))
          program "scale"
          = some (if t = XformMode.Off then Uniform.vec3 1 1 1 else Uniform.vec3 1 2 1)
      ∧ slot (setCamera program c (setTransforms program t (setProjection program p gl)))
          program "rotate"
          = some (if t = XformMode.Off then Uniform.vec3 0 0 0 else Uniform.vec3 0 330 305)
      ∧ slot (setCamera program c (setTransforms program t (setProjection program p gl)))
          program "translate"
          = some (if t = XformMode.Off then Uniform.vec3 0 0 0
                  else Uniform.vec3 (-13421773 / 67108864) (13421773 / 67108864) 0)
      ∧ slot (setCamera program c (setTransforms program t (setProjection program p gl)))
          program "eye"
          = some (if c = CamMode.Camera1 then Uniform.vec3 0 0 0
                  else Uniform.vec3 0 (5452595 / 4194304) (-0.5))
      ∧ slot (setCamera program c (setTransforms program t (setProjection program p gl)))
          program "lookat"
          = some (if c = CamMode.Camera1 then Uniform.vec3 0 0 (-1)
                  else Uniform.vec3 0 (-13421773 / 33554432) (-1))
      ∧ slot (setCamera program c (setTransforms program t (setProjection program p gl)))
          program "up" = some (Uniform.vec3 0 1 0))
    ∧ (slot (setCamera program CamMode.Camera1 (setTransforms program XformMode.Off
          (setProjection program ViewMode.Frustum gl))) program "type"
          = some (Uniform.int 0)
      ∧ slot (setCamera program CamMode.Camera1 (setTransforms program XformMode.Off
          (setProjection program ViewMode.Frustum gl))) program "left"
          = some (Uniform.float (-1))
      ∧ slot (setCamera program CamMode.Camera1 (setTransforms program XformMode.Off
          (setProjection program ViewMode.Frustum gl))) program "right"
          = some (Uniform.float 1)
      ∧ slot (setCamera program CamMode.Camera1 (setTransforms program XformMode.Off
          (setProjection program ViewMode.Frustum gl))) program "top"
          = some (Uniform.float 1)
      ∧ slot (setCamera program CamMode.Camera1 (setTransforms program XformMode.Off
          (setProjection program ViewMode.Frustum gl))) program "bottom"
          = some (Uniform.float (-1))
      ∧ slot (setCamera program CamMode.Camera1 (setTransforms program XformMode.Off
          (setProjection program ViewMode.Frustum gl))) program "near"
          = some (Uniform.float (7549747 / 8388608))
      ∧ slot (setCamera program CamMode.Camera1 (setTransforms program XformMode.Off
          (setProjection program ViewMode.Frustum gl))) program "far"
          = some (Uniform.float 4.5)
      ∧ slot (setCamera program CamMode.Camera1 (setTransforms program XformMode.Off
          (setProjection program ViewMode.Frustum gl))) program "scale"
          = some (Uniform.vec3 1 1 1)
      ∧ slot (setCamera program CamMode.Camera1 (setTransforms program XformMode.Off
          (setProjection program ViewMode.Frustum gl))) program "rotate"
          = some (Uniform.vec3 0 0 0)
      ∧ slot (setCamera program CamMode.Camera1 (setTransforms program XformMode.Off
          (setProjection program ViewMode.Frustum gl))) program "translate"
          = some (Uniform.vec3 0 0 0)
      ∧ slot (setCamera program CamMode.Camera1 (setTransforms program XformMode.Off
          (setProjection program ViewMode.Frustum gl))) program "eye"
          = some (Uniform.vec3 0 0 0)
      ∧ slot (setCamera program CamMode.Camera1 (setTransforms program XformMode.Off
          (setProjection program ViewMode.Frustum gl))) program "lookat"
          = some (Uniform.vec3 0 0 (-1))
      ∧ slot (setCamera program CamMode.Camera1 (setTransforms program XformMode.Off
          (setProjection program ViewMode.Frustum gl))) program "up"
          = some (Uniform.vec3 0 1 0)) := by
  unfold exposes glGetUniformLocation at h
  have both : ∀ A B : Prop, A → (A → B) → A ∧ B := fun _ _ a f => ⟨a, f a⟩
  refine both _ _ (fun p t c => ?_) (fun gen => ?_)
  · have hP := setProjection_at gl program p
    have hT := setTransforms_at (setProjection program p gl) program t
    have hC := setCamera_at (setTransforms program t (setProjection program p gl)) program c
    simp only [setTransforms_location, setProjection_location] at hT hC
    have e0 := h "type" (by decide)
    have e1 := h "left" (by decide)
    have e2 := h "right" (by decide)
    have e3 := h "top" (by decide)
    have e4 := h "bottom" (by decide)
    have e5 := h "near" (by decide)
    have e6 := h "far" (by decide)
    have e7 := h "scale" (by decide)
    have e8 := h "rotate" (by decide)
    have e9 := h "translate" (by decide)
    have e10 := h "eye" (by decide)
    have e11 := h "lookat" (by decide)
    have e12 := h "up" (by decide)
    have fC : ∀ name : String, name ≠ "eye" → name ≠ "lookat" → name ≠ "up" →
        gl.location program name ≠ -1 →
        (setCamera program c (setTransforms program t (setProjection program p gl))).uniform
            (gl.location program name)
          = (setTransforms program t (setProjection program p gl)).uniform
              (gl.location program name) := by
      intro name n1 n2 n3 hn
      apply setCamera_frame <;>
        simp only [setTransforms_location, setProjection_location]
      · exact location_ne gl program n1 hn
      · exact location_ne gl program n2 hn
      · exact location_ne gl program n3 hn
    have fT : ∀ name : String, name ≠ "scale" → name ≠ "rotate" → name ≠ "translate" →
        gl.location program name ≠ -1 →
        (setTransforms program t (setProjection program p gl)).uniform
            (gl.location program name)
          = (setProjection program p gl).uniform (gl.location program name) := by
      intro name n1 n2 n3 hn
      apply setTransforms_frame <;> simp only [setProjection_location]
      · exact location_ne gl program n1 hn
      · exact location_ne gl program n2 hn
      · exact location_ne gl program n3 hn
    have rd : ∀ name : String, gl.location program name ≠ -1 →
        slot (setCamera program c (setTransforms program t (setProjection program p gl)))
          program name
        = some ((setCamera program c
            (setTransforms program t (setProjection program p gl))).uniform
              (gl.location program name)) := by
      intro name hn
      rw [slot_setCamera, setTransforms_location, setProjection_location, if_neg hn]
    exact
      ⟨by rw [rd _ e0, fC _ (by decide) (by decide) (by decide) e0,
            fT _ (by decide) (by decide) (by decide) e0, hP.1 e0],
       by rw [rd _ e1, fC _ (by decide) (by decide) (by decide) e1,
            fT _ (by decide) (by decide) (by decide) e1, hP.2.1 e1],
       by rw [rd _ e2, fC _ (by decide) (by decide) (by decide) e2,
            fT _ (by decide) (by decide) (by decide) e2, hP.2.2.1 e2],
       by rw [rd _ e3, fC _ (by decide) (by decide) (by decide) e3,
            fT _ (by decide) (by decide) (by decide) e3, hP.2.2.2.1 e3],
       by rw [rd _ e4, fC _ (by decide) (by decide) (by decide) e4,
            fT _ (by decide) (by decide) (by decide) e4, hP.2.2.2.2.1 e4],
       by rw [rd _ e5, fC _ (by decide) (by decide) (by decide) e5,
            fT _ (by decide) (by decide) (by decide) e5, hP.2.2.2.2.2.1 e5],
       by rw [rd _ e6, fC _ (by decide) (by decide) (by decide) e6,
            fT _ (by decide) (by decide) (by decide) e6, hP.2.2.2.2.2.2 e6],
       by rw [rd _ e7, fC _ (by decide) (by decide) (by decide) e7, hT.1 e7],
       by rw [rd _ e8, fC _ (by decide) (by decide) (by decide) e8, hT.2.1 e8],
       by rw [rd _ e9, fC _ (by decide) (by decide) (by decide) e9, hT.2.2 e9],
       by rw [rd _ e10, hC.1 e10],
       by rw [rd _ e11, hC.2.1 e11],
       by rw [rd _ e12, hC.2.2 e12]⟩
  · exact gen ViewMode.Frustum XformMode.Off CamMode.Camera1

/-- Instance of C9 on the program `teapot`, which exposes all thirteen slots. -/
theorem end_to_end_witness :
    (∀ name ∈ shaderUniforms, exposes teapot 1 name)
    ∧ slot (setCamera 1 CamMode.Camera1 (setTransforms 1 XformMode.Off
        (setProjection 1 ViewMode.Frustum teapot))) 1 "type" = some (Uniform.int 0)
    ∧ slot (setCamera 1 CamMode.Camera1 (setTransforms 1 XformMode.Off
        (setProjection 1 ViewMode.Frustum teapot))) 1 "near"
        = some (Uniform.float (7549747 / 8388608))
    ∧ slot (setCamera 1 CamMode.Camera1 (setTransforms 1 XformMode.Off
        (setProjection 1 ViewMode.Frustum teapot))) 1 "lookat"
        = some (Uniform.vec3 0 0 (-1)) :=
  ⟨by decide, (end_to_end teapot 1 (by decide)).2.1,
    (end_to_end teapot 1 (by decide)).2.2.2.2.2.2.1,
    (end_to_end teapot 1 (by decide)).2.2.2.2.2.2.2.2.2.2.2.2.1⟩

/-! ## C10: the last call wins -/

/-- The values `setProjection` leaves at exposed projection locations do not
depend on the storage it started from. -/
theorem setProjection_values_fixed (gl gl' : GLContext) (program : GLuint) (mode : ViewMode)
    (hloc : gl'.location = gl.location) (name : String)
    (hn : name ∈ ["type", "left", "right", "top", "bottom", "near", "far"])
    (h : gl.location program name ≠ -1) :
    (setProjection program mode gl').uniform (gl.location program name)
      = (setProjection program mode gl).uniform (gl.location program name) := by
  have a := setProjection_at gl program mode
  have a' := setProjection_at gl' program mode
  rw [hloc] at a'
  simp only [List.mem_cons, List.mem_singleton, List.mem_nil_iff, or_false] at hn
  rcases hn with rfl | rfl | rfl | rfl | rfl | rfl | rfl
  · rw [a'.1 h, a.1 h]
  · rw [a'.2.1 h, a.2.1 h]
  · rw [a'.2.2.1 h, a.2.2.1 h]
  · rw [a'.2.2.2.1 h, a.2.2.2.1 h]
  · rw [a'.2.2.2.2.1 h, a.2.2.2.2.1 h]
  · rw [a'.2.2.2.2.2.1 h, a.2.2.2.2.2.1 h]
  · rw [a'.2.2.2.2.2.2 h, a.2.2.2.2.2.2 h]

/-- The values `setTransforms` leaves at exposed transformation locations do
not depend on the storage it started from. -/
theorem setTransforms_values_fixed (gl gl' : GLContext) (program : GLuint)
    (mode : XformMode) (hloc : gl'.location = gl.location) (name : String)
    (hn : name ∈ ["scale", "rotate", "translate"])
    (h : gl.location program name ≠ -1) :
    (setTransforms program mode gl').uniform (gl.location program name)
      = (setTransforms program mode gl).uniform (gl.location program name) := by
  have a := setTransforms_at gl program mode
  have a' := setTransforms_at gl' program mode
  rw [hloc] at a'
  simp only [List.mem_cons, List.mem_singleton, List.mem_nil_iff, or_false] at hn
  rcases hn with rfl | rfl | rfl
  · rw [a'.1 h, a.1 h]
  · rw [a'.2.1 h, a.2.1 h]
  · rw [a'.2.2 h, a.2.2 h]

/-- The values `setCamera` leaves at exposed camera locations do not depend on
the storage it started from. -/
theorem setCamera_values_fixed (gl gl' : GLContext) (program : GLuint) (mode : CamMode)
    (hloc : gl'.location = gl.location) (name : String)
    (hn : name ∈ ["eye", "lookat", "up"])
    (h : gl.location program name ≠ -1) :
    (setCamera program mode gl').uniform (gl.location program name)
      = (setCamera program mode gl).uniform (gl.location program name) := by
  have a := setCamera_at gl program mode
  have a' := setCamera_at gl' program mode
  rw [hloc] at a'
  simp only [List.mem_cons, List.mem_singleton, List.mem_nil_iff, or_false] at hn
  rcases hn with rfl | rfl | rfl
  · rw [a'.1 h, a.1 h]
  · rw [a'.2.1 h, a.2.1 h]
  · rw [a'.2.2 h, a.2.2 h]

/-- C10: for each of `setProjection`, `setTransforms` and `setCamera` and every
pair of modes, the call with the second mode after a call with the first leaves
the same slot state (uniform storage and name resolution) as the call with the
second mode alone.  And the value an operation leaves in a slot it names depends
on the mode only: from two contexts with the same name resolution, whatever
their storage holds, the operation leaves the same value in each named slot. -/
theorem last_call_wins (gl : GLContext) (program : GLuint) :
    (∀ m1 m2 : ViewMode,
        (setProjection program m2 (setProjection program m1 gl)).uniform
          = (setProjection program m2 gl).uniform
        ∧ (setProjection program m2 (setProjection program m1 gl)).location
          = (setProjection program m2 gl).location)
    ∧ (∀ m1 m2 : XformMode,
        (setTransforms program m2 (setTransforms program m1 gl)).uniform
          = (setTransforms program m2 gl).uniform
        ∧ (setTransforms program m2 (setTransforms program m1 gl)).location
          = (setTransforms program m2 gl).location)
    ∧ (∀ m1 m2 : CamMode,
        (setCamera program m2 (setCamera program m1 gl)).uniform
          = (setCamera program m2 gl).uniform
        ∧ (setCamera program m2 (setCamera program m1 gl)).location
          = (setCamera program m2 gl).location)
    ∧ (∀ gl' : GLContext, gl'.location = gl.location →
        (∀ (mode : ViewMode),
          ∀ name ∈ ["type", "left", "right", "top", "bottom", "near", "far"],
            slot (setProjection program mode gl') program name
              = slot (setProjection program mode gl) program name)
        ∧ (∀ (mode : XformMode), ∀ name ∈ ["scale", "rotate", "translate"],
            slot (setTransforms program mode gl') program name
              = slot (setTransforms program mode gl) program name)
        ∧ (∀ (mode : CamMode), ∀ name ∈ ["eye", "lookat", "up"],
            slot (setCamera program mode gl') program name
              = slot (setCamera program mode gl) program name)) := by
  refine ⟨fun m1 m2 => ⟨setProjection_absorb gl program m1 m2, ?_⟩,
    fun m1 m2 => ⟨setTransforms_absorb gl program m1 m2, ?_⟩,
    fun m1 m2 => ⟨setCamera_absorb gl program m1 m2, ?_⟩,
    fun gl' hloc => ⟨fun mode name hn => ?_, fun mode name hn => ?_,
      fun mode name hn => ?_⟩⟩
  · simp only [setProjection_location]
  · simp only [setTransforms_location]
  · simp only [setCamera_location]
  · rw [slot_setProjection, slot_setProjection, hloc]
    by_cases h : gl.location program name = -1
    · rw [if_pos h, if_pos h]
    · rw [if_neg h, if_neg h, setProjection_values_fixed gl gl' program mode hloc name hn h]
  · rw [slot_setTransforms, slot_setTransforms, hloc]
    by_cases h : gl.location program name = -1
    · rw [if_pos h, if_pos h]
    · rw [if_neg h, if_neg h, setTransforms_values_fixed gl gl' program mode hloc name hn h]
  · rw [slot_setCamera, slot_setCamera, hloc]
    by_cases h : gl.location program name = -1
    · rw [if_pos h, if_pos h]
    · rw [if_neg h, if_neg h, setCamera_values_fixed gl gl' program mode hloc name hn h]

/-- Instance of C10 on the program `teapot`: the camera slots after `Camera1`
are the same from the fresh context and from the context left by the
transformation and projection calls, and `Camera1` after `Camera2` leaves the
storage of `Camera1` alone. -/
theorem last_call_wins_witness :
    (setCamera 1 CamMode.Camera1 (setCamera 1 CamMode.Camera2 teapot)).uniform
      = (setCamera 1 CamMode.Camera1 teapot).uniform
    ∧ slot (setCamera 1 CamMode.Camera1
          (setTransforms 1 XformMode.On (setProjection 1 ViewMode.Ortho teapot))) 1 "eye"
      = slot (setCamera 1 CamMode.Camera1 teapot) 1 "eye" :=
  ⟨((last_call_wins teapot 1).2.2.1 CamMode.Camera2 CamMode.Camera1).1,
    ((last_call_wins teapot 1).2.2.2
      (setTransforms 1 XformMode.On (setProjection 1 ViewMode.Ortho teapot)) rfl).2.2
      CamMode.Camera1 "eye" (by decide)⟩

end Transforms
